import Mathlib

/-!
# Verification of the `validate` crate's statistics-and-aggregation engine

Shallow embedding of `src/stats.rs`, `src/time_series.rs` and `src/lib.rs`.

Modelling conventions:
* The 64-bit floating reference type `f64` is modelled by `FP := Option ℚ`:
  `none` is NaN, `some q` is the finite value `q`, with exact rational
  arithmetic (rounding and infinities are not modelled; division by zero,
  which would produce an IEEE infinity or NaN, is mapped to NaN).
  NaN propagates through arithmetic and makes every ordering comparison
  return `false`, as in IEEE-754.
* A Rust `panic!` / failed `assert!` is modelled by `Except.error msg`;
  normal completion by `Except.ok`.  A panic propagates: once a
  computation returns `Except.error`, the enclosing computation aborts.
* Chart rendering (`poloto`) is an external collaborator; the rendered
  chart text is a parameter `render` of `SeriesValidator.validate`.
* File / HTML output of the aggregator is external I/O; the aggregator
  model returns the markdown report body it would render.
-/

set_option allowUnsafeReducibility true

attribute [semireducible] Rat.add Rat.mul Rat.sub Rat.inv Rat.ofScientific

/-- Decidable equality of `Except` results, used to evaluate the model on
concrete inputs. -/
instance {ε α : Type} [DecidableEq ε] [DecidableEq α] : DecidableEq (Except ε α) := fun x y =>
  match x, y with
  | Except.error a, Except.error b =>
    if h : a = b then Decidable.isTrue (by rw [h])
    else Decidable.isFalse (fun he => by cases he; exact h rfl)
  | Except.error _, Except.ok _ => Decidable.isFalse (fun he => by cases he)
  | Except.ok _, Except.error _ => Decidable.isFalse (fun he => by cases he)
  | Except.ok a, Except.ok b =>
    if h : a = b then Decidable.isTrue (by rw [h])
    else Decidable.isFalse (fun he => by cases he; exact h rfl)

namespace Validate

/-- Model of `f64`: `none` is NaN, `some q` a finite rational value. -/
abbrev FP := Option ℚ

/-- IEEE-style addition on the `f64` model: NaN absorbs. -/
def FP.add : FP → FP → FP
  | some a, some b => some (a + b)
  | _, _ => none

/-- IEEE-style subtraction on the `f64` model: NaN absorbs. -/
def FP.sub : FP → FP → FP
  | some a, some b => some (a - b)
  | _, _ => none

/-- IEEE-style multiplication on the `f64` model: NaN absorbs. -/
def FP.mul : FP → FP → FP
  | some a, some b => some (a * b)
  | _, _ => none

/-- Division on the `f64` model: NaN absorbs; division by zero (which in
IEEE-754 yields an infinity or NaN, neither of which is modelled) is
mapped to NaN. -/
def FP.div : FP → FP → FP
  | some a, some b => if b = 0 then none else some (a / b)
  | _, _ => none

/-- `a < b` as in Rust's `PartialOrd` on `f64`: any comparison with NaN
is `false`. -/
def FP.lt : FP → FP → Bool
  | some a, some b => decide (a < b)
  | _, _ => false

/-- `a > b` as in Rust's `PartialOrd` on `f64`: any comparison with NaN
is `false`. -/
def FP.gt : FP → FP → Bool
  | some a, some b => decide (b < a)
  | _, _ => false

/-- `f64::abs`: `abs` of NaN is NaN. -/
def FP.abs : FP → FP
  | some a => some |a|
  | none => none

/-- `Nanish::is_it_nan` for the `f64` model. -/
def FP.is_it_nan : FP → Bool
  | none => true
  | some _ => false

/-- `i32::MAX`. -/
def i32MAX : Nat := 2147483647

/-- `f32::MAX`, exactly, as a rational (`(2^24 - 1) * 2^104`); its
conversion into `f64` is exact. -/
def f32MAX : ℚ := 340282346638528859811704183484516925440

/-- `src/stats.rs::try_into_t`: converts a `usize` sample count into the
64-bit reference type through the `i32` path; panics (modelled as
`Except.error`) when the count exceeds `i32::MAX`.  Within range the
conversion `usize -> i32 -> f64` is exact, so the model returns the
count itself as a rational. -/
def try_into_t (n_usize : Nat) : Except String ℚ :=
  if i32MAX < n_usize then
    Except.error "Too many samples... the limit is 2147483647"
  else
    Except.ok (n_usize : ℚ)

/-- The fold `x.iter().fold(0.0, |acc, item| acc + item.into())` used by
every statistic in `src/stats.rs`. -/
def sumFP (x : List FP) : FP := x.foldl FP.add (some 0)

/-- The loop body of `src/stats.rs::min_max`: walks the list with the
running `max` and `min` accumulators, panicking on NaN. -/
def min_max_loop : List FP → FP → FP → Except String (FP × FP)
  | [], mx, mn => Except.ok (mn, mx)
  | v :: rest, mx, mn =>
    if v.is_it_nan then
      Except.error "Found NaN when calculating min and max of dataset"
    else
      min_max_loop rest (if FP.gt v mx then v else mx) (if FP.lt v mn then v else mn)

/-- `src/stats.rs::min_max`: panics on an empty dataset, then scans with
`max` seeded from `f32::MIN` and `min` seeded from `f32::MAX`, panicking
on any NaN, and returns `(min, max)`. -/
def min_max (x : List FP) : Except String (FP × FP) :=
  if x.length = 0 then
    Except.error "Trying to calculate Max and Min of empty dataset"
  else
    min_max_loop x (some (-f32MAX)) (some f32MAX)

/-- `src/stats.rs::mean`: panics on an empty dataset, converts the count
via `try_into_t`, then divides the accumulated sum by it. -/
def mean (x : List FP) : Except String FP :=
  if x.length = 0 then
    Except.error "Trying to calculate mean of empty dataset"
  else do
    let n ← try_into_t x.length
    Except.ok (FP.div (sumFP x) (some n))

/-- `src/stats.rs::mean_bias_error`: panics on length mismatch or empty
datasets, then returns `(Σ (y_i - x_i)) / n`. -/
def mean_bias_error (x y : List FP) : Except String FP :=
  if x.length ≠ y.length then
    Except.error "Calculating Mean Bias Error of two datasets of different length."
  else if x.length = 0 then
    Except.error "Trying to calculate Mean Bias Error of empty datasets"
  else do
    let n ← try_into_t x.length
    Except.ok (FP.div (sumFP ((x.zip y).map fun p => FP.sub p.2 p.1)) (some n))

/-- `src/stats.rs::root_mean_squared_error`: panics on length mismatch or
empty datasets, then returns `(Σ (y_i - x_i)^2) / n`.  Note: the source
returns `squared_error / n` directly, without taking the square root its
own doc comment (`RMSE = sqrt(Σ(y_i - x_i)^2 / n)`) prescribes. -/
def root_mean_squared_error (x y : List FP) : Except String FP :=
  if x.length ≠ y.length then
    Except.error "Calculating Root Mean Squared Error of two datasets of different length."
  else if x.length = 0 then
    Except.error "Trying to calculate Root Mean Squared Error of empty datasets"
  else do
    let n ← try_into_t x.length
    Except.ok
      (FP.div (sumFP ((x.zip y).map fun p => FP.mul (FP.sub p.2 p.1) (FP.sub p.2 p.1)))
        (some n))

/-- `src/stats.rs::linear_coefficients`: panics on length mismatch or
empty datasets, then evaluates the closed-form ordinary-least-squares
sums-of-squares formulas, returning `(a, b, R²)`. -/
def linear_coefficients (x y : List FP) : Except String (FP × FP × FP) :=
  if x.length ≠ y.length then
    Except.error "Calculating linear coefficients of two datasets of different length."
  else if x.length = 0 then
    Except.error "Trying to calculate linear coefficients of empty datasets"
  else do
    let n ← try_into_t x.length
    let nf : FP := some n
    let ss_x := sumFP x
    let ss_xx := sumFP (x.map fun a => FP.mul a a)
    let ss_y := sumFP y
    let ss_yy := sumFP (y.map fun a => FP.mul a a)
    let ss_xy := sumFP ((x.zip y).map fun p => FP.mul p.1 p.2)
    let b :=
      FP.div (FP.sub ss_xy (FP.div (FP.mul ss_x ss_y) nf))
        (FP.sub ss_xx (FP.div (FP.mul ss_x ss_x) nf))
    let a := FP.div (FP.sub ss_y (FP.mul b ss_x)) nf
    let rsquared :=
      FP.div
        (FP.mul (FP.sub (FP.mul nf ss_xy) (FP.mul ss_x ss_y))
          (FP.sub (FP.mul nf ss_xy) (FP.mul ss_x ss_y)))
        (FP.mul (FP.sub (FP.mul nf ss_xx) (FP.mul ss_x ss_x))
          (FP.sub (FP.mul nf ss_yy) (FP.mul ss_y ss_y)))
    Except.ok (a, b, rsquared)

/-- Zero-pads a natural number below 10000 to four digits; models the
fractional-digit rendering of Rust's `{:.4}` format. -/
def pad4 (n : Nat) : String :=
  if n < 10 then "000" ++ toString n
  else if n < 100 then "00" ++ toString n
  else if n < 1000 then "0" ++ toString n
  else toString n

/-- Rounds a rational to the nearest integer, ties to even; models the
rounding performed by Rust's fixed-precision float formatting. -/
def roundTiesEven (x : ℚ) : Int :=
  let fl := ⌊x⌋
  let r := x - fl
  if r < 1 / 2 then fl
  else if 1 / 2 < r then fl + 1
  else if fl % 2 = 0 then fl else fl + 1

/-- Renders a nonnegative scaled value (an integer number of 1/10000
units) as `intpart.4digits`. -/
def fmt4pos (m : Nat) : String := toString (m / 10000) ++ "." ++ pad4 (m % 10000)

/-- Model of Rust's `format!("{:.4}", v)` on the `f64` model: NaN prints
as `"NaN"`; a finite value is rounded to four decimal places. -/
def fmt4 : FP → String
  | none => "NaN"
  | some q =>
    if q < 0 then "-" ++ fmt4pos (roundTiesEven (-q * 10000)).toNat
    else fmt4pos (roundTiesEven (q * 10000)).toNat

/-- `src/lib.rs::ValidationResult`: `Err` carries the report fragment and
the error summary (in that order); `Ok` carries just the fragment. -/
inductive ValidationResult : Type
  | Err (txt : String) (err : String) : ValidationResult
  | Ok (txt : String) : ValidationResult
deriving DecidableEq

/-- `ValidationResult::is_err`. -/
def ValidationResult.is_err : ValidationResult → Bool
  | ValidationResult.Err _ _ => true
  | ValidationResult.Ok _ => false

/-- `ValidationResult::is_ok`. -/
def ValidationResult.is_ok : ValidationResult → Bool
  | ValidationResult.Err _ _ => false
  | ValidationResult.Ok _ => true

/-- The report fragment carried by a `ValidationResult` — the `txt` that
`Validator::validate` pushes into the report in either variant. -/
def ValidationResult.fragment : ValidationResult → String
  | ValidationResult.Err txt _ => txt
  | ValidationResult.Ok txt => txt

/-- The error summary pushed onto the aggregator's `errors` list: `some`
for the `Err` variant, `none` for `Ok`. -/
def ValidationResult.errSummary : ValidationResult → Option String
  | ValidationResult.Err _ e => some e
  | ValidationResult.Ok _ => none

/-- `src/time_series.rs::SeriesValidator` (the chart-labelling fields that
only feed the external plot renderer are carried by the `render`
parameter of `SeriesValidator.validate` instead). -/
structure SeriesValidator : Type where
  allowed_mean_bias_error : Option FP := none
  allowed_root_mean_squared_error : Option FP := none
  expected : List FP := []
  found : List FP := []

/-- The `err_msg` accumulated by the two threshold checks of
`SeriesValidator::validate` (starting from the empty string). -/
def seriesErrMsg (v : SeriesValidator) (mbe rmse : FP) : String :=
  let errMsg1 :=
    match v.allowed_mean_bias_error with
    | none => ""
    | some t =>
      if FP.gt (FP.abs mbe) t then
        "" ++ " * Mean Bias Error is " ++ fmt4 (FP.abs mbe) ++
          ", which is greater than the allowed value of " ++ fmt4 t
      else ""
  match v.allowed_root_mean_squared_error with
  | none => errMsg1
  | some t =>
    if FP.gt (FP.abs rmse) t then
      errMsg1 ++ "\n * Mean Root Squared Error is " ++ fmt4 rmse ++
        ", which is greater than the allowed value of " ++ fmt4 t
    else errMsg1

/-- `nchecks` of `SeriesValidator::validate`: how many thresholds are
configured. -/
def seriesNChecks (v : SeriesValidator) : Nat :=
  (if v.allowed_mean_bias_error.isSome then 1 else 0) +
    (if v.allowed_root_mean_squared_error.isSome then 1 else 0)

/-- `<SeriesValidator as Validate>::validate` from `src/time_series.rs`:
returns the length-mismatch `Err` outcome early, otherwise converts the
count (panicking past `i32::MAX`), computes the two metrics (each of
which panics on empty datasets), runs the threshold checks, and builds
the report fragment.  `render` stands for the external `poloto` chart
rendering. -/
def SeriesValidator.validate (render : SeriesValidator → String) (v : SeriesValidator) :
    Except String ValidationResult :=
  if v.expected.length ≠ v.found.length then
    Except.ok
      (ValidationResult.Err
        ("Series to compare have different lengths. expected.len() = " ++
          toString v.expected.length ++ ", found.len() = " ++ toString v.found.length)
        ("Series to compare have different lengths. expected.len() = " ++
          toString v.expected.length ++ ", found.len() = " ++ toString v.found.length))
  else do
    let _n ← try_into_t v.expected.length
    let mbe ← mean_bias_error v.expected v.found
    let file_msg := "" ++ "\n * Mean Bias Error: " ++ fmt4 mbe
    let rmse ← root_mean_squared_error v.expected v.found
    let file_msg := file_msg ++ "\n * Root Mean Squared Error: " ++ fmt4 rmse
    let err_msg := seriesErrMsg v mbe rmse
    let show_err :=
      if seriesNChecks v = 0 then "No checks performed..."
      else if err_msg = "" then "No errors found"
      else err_msg
    let file :=
      file_msg ++ "\n#### Errors:\n " ++ show_err ++ "\n#### Data:\n\n" ++ render v
    if err_msg = "" then Except.ok (ValidationResult.Ok file)
    else Except.ok (ValidationResult.Err file err_msg)

/-- `src/lib.rs::Validator`: the aggregator.  Each pushed boxed check is
modelled by the (deterministic) result of running its `validate` method:
`Except.error` when that run panics, `Except.ok r` when it completes
with outcome `r`.  The `target_file` sink is external I/O and omitted. -/
structure Validator : Type where
  title : String
  validations : List (Except String ValidationResult)

/-- The sequential `.map(..).collect()` loop of `Validator::validate`: a
panic in any check aborts the whole run; otherwise the fragments and the
error summaries are collected in iteration order. -/
def runValidations : List (Except String ValidationResult) →
    Except String (List String × List String)
  | [] => Except.ok ([], [])
  | r :: rest =>
    match r with
    | Except.error p => Except.error p
    | Except.ok (ValidationResult.Err txt e) => do
      let (ts, es) ← runValidations rest
      Except.ok (txt :: ts, e :: es)
    | Except.ok (ValidationResult.Ok txt) => do
      let (ts, es) ← runValidations rest
      Except.ok (txt :: ts, es)

/-- `Validator::validate` from `src/lib.rs`: runs every pushed check in
insertion order, builds the report body
`"# {title}\n\n{fragments joined by \n}"`, and returns `Ok(())` when no
check produced an `Err` outcome, otherwise
`Err("Some validations failed...")`.  The model returns the report body
it would write alongside the verdict; a panic in any check propagates. -/
def Validator.validate (v : Validator) : Except String (String × Except String Unit) :=
  match runValidations v.validations with
  | Except.error p => Except.error p
  | Except.ok (txts, errors) =>
    Except.ok
      ("# " ++ v.title ++ "\n\n" ++ String.intercalate "\n" txts,
        if errors.isEmpty then Except.ok ()
        else Except.error "Some validations failed...")

/-! ## Spec-side definitions

These definitions follow the specification's words (spec §4.2 and §4.4),
to be compared with the source-derived definitions above. -/

/-- Sum of a list of (exact) rationals: the spec's `Σ`. -/
def sumListQ (l : List ℚ) : ℚ := l.foldl (fun a b => a + b) 0

/-- The spec's OLS slope: `b = (Σxy − ΣxΣy/n) / (Σx² − (Σx)²/n)`. -/
def specSlope (x y : List ℚ) : ℚ :=
  (sumListQ ((x.zip y).map fun p => p.1 * p.2) - sumListQ x * sumListQ y / (x.length : ℚ)) /
    (sumListQ (x.map fun a => a * a) - sumListQ x * sumListQ x / (x.length : ℚ))

/-- The spec's OLS intercept: `a = (Σy − bΣx)/n`. -/
def specIntercept (x y : List ℚ) : ℚ :=
  (sumListQ y - specSlope x y * sumListQ x) / (x.length : ℚ)

/-- The spec's coefficient of determination:
`R² = (nΣxy − ΣxΣy)² / ((nΣx² − (Σx)²)(nΣy² − (Σy)²))`. -/
def specRSquared (x y : List ℚ) : ℚ :=
  ((x.length : ℚ) * sumListQ ((x.zip y).map fun p => p.1 * p.2) - sumListQ x * sumListQ y) ^ 2 /
    (((x.length : ℚ) * sumListQ (x.map fun a => a * a) - sumListQ x * sumListQ x) *
      ((x.length : ℚ) * sumListQ (y.map fun a => a * a) - sumListQ y * sumListQ y))

/-- The spec's notion of a violated threshold for a series comparison
(spec §4.4): a configured maximum is exceeded by the corresponding
metric's absolute value, under the source's comparison semantics. -/
def seriesViolated (v : SeriesValidator) (mbe rmse : FP) : Bool :=
  (match v.allowed_mean_bias_error with
    | some t => FP.gt (FP.abs mbe) t
    | none => false) ||
  (match v.allowed_root_mean_squared_error with
    | some t => FP.gt (FP.abs rmse) t
    | none => false)

/-! ## Helper lemmas -/

theorem str_append_ne_empty_left (a b : String) (h : a ≠ "") : a ++ b ≠ "" := by
  intro he
  apply h
  apply String.ext
  have hd : a.data ++ b.data = [] := by
    rw [← String.data_append]; rw [he]
  rcases List.append_eq_nil.mp hd with ⟨h1, _⟩
  simpa using h1

theorem str_append_ne_empty_right (a b : String) (h : b ≠ "") : a ++ b ≠ "" := by
  intro he
  apply h
  apply String.ext
  have hd : a.data ++ b.data = [] := by
    rw [← String.data_append]; rw [he]
  rcases List.append_eq_nil.mp hd with ⟨_, h2⟩
  simpa using h2

theorem str_append_eq_empty_iff (a b : String) : (a ++ b = "") ↔ (a = "" ∧ b = "") := by
  constructor
  · intro he
    have hd := congrArg String.data he
    rw [String.data_append] at hd
    rcases List.append_eq_nil.mp hd with ⟨h1, h2⟩
    exact ⟨String.ext (by simpa using h1), String.ext (by simpa using h2)⟩
  · rintro ⟨rfl, rfl⟩; rfl

theorem FP.add_none_left (b : FP) : FP.add none b = none := by cases b <;> rfl

theorem FP.add_none_right (a : FP) : FP.add a none = none := by cases a <;> rfl

theorem FP.sub_none_left (b : FP) : FP.sub none b = none := by cases b <;> rfl

theorem FP.sub_none_right (a : FP) : FP.sub a none = none := by cases a <;> rfl

theorem FP.mul_none_left (b : FP) : FP.mul none b = none := by cases b <;> rfl

theorem FP.mul_none_right (a : FP) : FP.mul a none = none := by cases a <;> rfl

theorem FP.div_none_left (b : FP) : FP.div none b = none := by cases b <;> rfl

theorem FP.gt_none_left (t : FP) : FP.gt none t = false := by cases t <;> rfl

theorem FP.div_some (a b : ℚ) (h : b ≠ 0) : FP.div (some a) (some b) = some (a / b) := by
  simp [FP.div, h]

/-- Folding `FP.add` from a NaN accumulator stays NaN. -/
theorem foldl_add_none : ∀ (l : List FP), List.foldl FP.add none l = none
  | [] => rfl
  | b :: t => by rw [List.foldl_cons, FP.add_none_left, foldl_add_none t]

/-- Folding `FP.add` over a list that contains a NaN yields NaN. -/
theorem foldl_add_none_of_mem :
    ∀ (l : List FP) (acc : FP), (∃ a ∈ l, a = none) → List.foldl FP.add acc l = none
  | [], _, h => by simp at h
  | b :: t, acc, h => by
    rcases h with ⟨a, ha, hnone⟩
    rcases List.mem_cons.mp ha with h1 | h2
    · subst h1
      rw [hnone, List.foldl_cons, FP.add_none_right, foldl_add_none t]
    · rw [List.foldl_cons]
      exact foldl_add_none_of_mem t _ ⟨a, h2, hnone⟩

/-- A sum over a dataset containing a NaN is NaN. -/
theorem sumFP_none_of_mem (l : List FP) (h : ∃ a ∈ l, a = none) : sumFP l = none :=
  foldl_add_none_of_mem l _ h

/-- Folding `FP.add` over NaN-free data is the exact rational fold. -/
theorem foldl_add_map_some :
    ∀ (l : List ℚ) (a : ℚ),
      List.foldl FP.add (some a) (l.map some) = some (l.foldl (fun c b => c + b) a)
  | [], _ => rfl
  | b :: t, a => by
    rw [List.map_cons, List.foldl_cons, List.foldl_cons]
    exact foldl_add_map_some t (a + b)

/-- `sumFP` over NaN-free data computes the exact rational sum. -/
theorem sumFP_map_some (l : List ℚ) : sumFP (l.map some) = some (sumListQ l) :=
  foldl_add_map_some l 0

/-- Squaring commutes with the embedding of NaN-free data. -/
theorem map_sq_some :
    ∀ (l : List ℚ),
      (l.map some).map (fun a => FP.mul a a) = (l.map fun a => a * a).map some
  | [] => rfl
  | b :: t => by
    rw [List.map_cons, List.map_cons, List.map_cons, List.map_cons, map_sq_some t]
    rfl

/-- Pairwise products commute with the embedding of NaN-free data. -/
theorem zip_map_some_mul :
    ∀ (x y : List ℚ),
      ((x.map some).zip (y.map some)).map (fun p => FP.mul p.1 p.2) =
        ((x.zip y).map fun p => p.1 * p.2).map some
  | [], _ => rfl
  | _ :: _, [] => rfl
  | a :: x, b :: y => by
    rw [List.map_cons, List.map_cons, List.zip_cons_cons, List.zip_cons_cons,
      List.map_cons, List.map_cons, List.map_cons, zip_map_some_mul x y]
    rfl

/-- A pairwise map whose operation absorbs NaN on both sides produces a NaN
element as soon as either equal-length input contains one. -/
theorem zip_map_none_of_mem (f : FP → FP → FP)
    (hl : ∀ b, f none b = none) (hr : ∀ a, f a none = none) :
    ∀ (x y : List FP), x.length = y.length →
      ((∃ a ∈ x, a = none) ∨ (∃ b ∈ y, b = none)) →
      ∃ c ∈ (x.zip y).map (fun p => f p.1 p.2), c = none
  | [], [], _, h => by simp at h
  | [], _ :: _, h, _ => by simp at h
  | _ :: _, [], h, _ => by simp at h
  | a :: x, b :: y, hlen, h => by
    rw [List.zip_cons_cons, List.map_cons]
    rcases h with ⟨u, hu, hun⟩ | ⟨u, hu, hun⟩
    · rcases List.mem_cons.mp hu with h1 | h2
      · subst h1
        exact ⟨f none b, by rw [← hun]; exact List.mem_cons_self _ _, hl b⟩
      · rcases zip_map_none_of_mem f hl hr x y (by simpa using hlen)
          (Or.inl ⟨u, h2, hun⟩) with ⟨c, hc, hcn⟩
        exact ⟨c, List.mem_cons_of_mem _ hc, hcn⟩
    · rcases List.mem_cons.mp hu with h1 | h2
      · subst h1
        exact ⟨f a none, by rw [← hun]; exact List.mem_cons_self _ _, hr a⟩
      · rcases zip_map_none_of_mem f hl hr x y (by simpa using hlen)
          (Or.inr ⟨u, h2, hun⟩) with ⟨c, hc, hcn⟩
        exact ⟨c, List.mem_cons_of_mem _ hc, hcn⟩

/-- Pairing NaN-free data with itself and subtracting yields only zeros. -/
theorem zip_self_sub_zero :
    ∀ (x : List FP), (∀ a ∈ x, a.is_it_nan = false) →
      ∀ c ∈ (x.zip x).map (fun p => FP.sub p.2 p.1), c = some 0
  | [], _, c, hc => by simp at hc
  | a :: t, h, c, hc => by
    rw [List.zip_cons_cons, List.map_cons] at hc
    rcases List.mem_cons.mp hc with h1 | h2
    · subst h1
      cases a with
      | none => exact absurd (h none (List.mem_cons_self _ _)) (by simp [FP.is_it_nan])
      | some q => simp [FP.sub]
    · exact zip_self_sub_zero t (fun b hb => h b (List.mem_cons_of_mem _ hb)) c h2

/-- Pairing NaN-free data with itself, subtracting and squaring yields only
zeros. -/
theorem zip_self_sub_sq_zero :
    ∀ (x : List FP), (∀ a ∈ x, a.is_it_nan = false) →
      ∀ c ∈ (x.zip x).map (fun p => FP.mul (FP.sub p.2 p.1) (FP.sub p.2 p.1)), c = some 0
  | [], _, c, hc => by simp at hc
  | a :: t, h, c, hc => by
    rw [List.zip_cons_cons, List.map_cons] at hc
    rcases List.mem_cons.mp hc with h1 | h2
    · subst h1
      cases a with
      | none => exact absurd (h none (List.mem_cons_self _ _)) (by simp [FP.is_it_nan])
      | some q => simp [FP.sub, FP.mul]
    · exact zip_self_sub_sq_zero t (fun b hb => h b (List.mem_cons_of_mem _ hb)) c h2

/-- Folding `FP.add` over a list of exact zeros leaves the accumulator. -/
theorem foldl_add_all_zero :
    ∀ (l : List FP) (q : ℚ), (∀ c ∈ l, c = some 0) →
      List.foldl FP.add (some q) l = some q
  | [], _, _ => rfl
  | c :: t, q, h => by
    rw [List.foldl_cons, h c (List.mem_cons_self _ _)]
    show List.foldl FP.add (some (q + 0)) t = some q
    rw [add_zero]
    exact foldl_add_all_zero t q (fun b hb => h b (List.mem_cons_of_mem _ hb))

/-- The sum of a list of exact zeros is zero. -/
theorem sumFP_all_zero (l : List FP) (h : ∀ c ∈ l, c = some 0) : sumFP l = some 0 :=
  foldl_add_all_zero l 0 h

/-- The `min_max` scan panics as soon as the dataset contains a NaN. -/
theorem min_max_loop_nan :
    ∀ (l : List FP) (mx mn : FP), (∃ a ∈ l, a = none) →
      min_max_loop l mx mn = Except.error "Found NaN when calculating min and max of dataset"
  | [], _, _, h => by simp at h
  | a :: t, mx, mn, h => by
    rcases h with ⟨u, hu, hun⟩
    rcases List.mem_cons.mp hu with h1 | h2
    · subst h1
      rw [hun]
      rfl
    · cases a with
      | none => rfl
      | some q =>
        show min_max_loop t _ _ = _
        exact min_max_loop_nan t _ _ ⟨u, h2, hun⟩

/-- The aggregator loop over checks that all complete collects every
fragment in order together with the `Err` summaries. -/
theorem runValidations_map_ok :
    ∀ (rs : List ValidationResult),
      runValidations (rs.map Except.ok) =
        Except.ok (rs.map ValidationResult.fragment, rs.filterMap ValidationResult.errSummary)
  | [] => rfl
  | r :: t => by
    cases r with
    | Err txt e =>
      show runValidations (Except.ok (ValidationResult.Err txt e) :: t.map Except.ok) = _
      rw [runValidations]
      rw [runValidations_map_ok t]
      rfl
    | Ok txt =>
      show runValidations (Except.ok (ValidationResult.Ok txt) :: t.map Except.ok) = _
      rw [runValidations]
      rw [runValidations_map_ok t]
      rfl

/-- No error summary is collected exactly when every outcome is `Ok`. -/
theorem errSummary_isEmpty_iff_all_ok :
    ∀ (rs : List ValidationResult),
      (rs.filterMap ValidationResult.errSummary).isEmpty = rs.all ValidationResult.is_ok
  | [] => rfl
  | r :: t => by
    cases r with
    | Err txt e => simp [ValidationResult.errSummary, ValidationResult.is_ok]
    | Ok txt =>
      simp only [List.filterMap_cons, ValidationResult.errSummary, List.all_cons,
        ValidationResult.is_ok, Bool.true_and]
      exact errSummary_isEmpty_iff_all_ok t

/-- The accumulated `err_msg` is empty exactly when no configured
threshold is violated. -/
theorem seriesErrMsg_eq_empty_iff (v : SeriesValidator) (mbe rmse : FP) :
    (seriesErrMsg v mbe rmse = "") ↔ seriesViolated v mbe rmse = false := by
  unfold seriesErrMsg seriesViolated
  cases hM : v.allowed_mean_bias_error with
  | none =>
    cases hR : v.allowed_root_mean_squared_error with
    | none => simp
    | some t =>
      by_cases hg : FP.gt (FP.abs rmse) t
      · simp only [hg, if_true]
        constructor
        · intro he
          simp [str_append_eq_empty_iff] at he
        · intro hf; simp at hf
      · simp [hg]
  | some t =>
    by_cases hg : FP.gt (FP.abs mbe) t
    · cases hR : v.allowed_root_mean_squared_error with
      | none =>
        simp only [hg, if_true]
        constructor
        · intro he
          simp [str_append_eq_empty_iff] at he
        · intro hf; simp at hf
      | some u =>
        by_cases hg2 : FP.gt (FP.abs rmse) u
        · simp only [hg, hg2, if_true]
          constructor
          · intro he
            simp [str_append_eq_empty_iff] at he
          · intro hf; simp at hf
        · simp only [hg, hg2, if_true, if_false]
          constructor
          · intro he
            simp [str_append_eq_empty_iff] at he
          · intro hf; simp at hf
    · cases hR : v.allowed_root_mean_squared_error with
      | none => simp [hg]
      | some u =>
        by_cases hg2 : FP.gt (FP.abs rmse) u
        · simp only [hg, hg2, if_true, if_false]
          constructor
          · intro he
            simp [str_append_eq_empty_iff] at he
          · intro hf; simp at hf
        · simp [hg, hg2]

theorem str_append_assoc (a b c : String) : (a ++ b) ++ c = a ++ (b ++ c) := by
  apply String.ext
  rw [String.data_append, String.data_append, String.data_append, String.data_append,
    List.append_assoc]

theorem str_empty_append (s : String) : "" ++ s = s := by
  apply String.ext
  rw [String.data_append]
  rfl

/-- Sequencing a completed step in the panic model just continues. -/
theorem except_pure_bind {α β : Type} (a : α) (f : α → Except String β) :
    (Except.ok a >>= f) = f a := rfl

/-- With NaN metrics no threshold check can fire, whatever thresholds are
configured: comparisons against NaN are always `false`. -/
theorem seriesErrMsg_nan (v : SeriesValidator) : seriesErrMsg v none none = "" := by
  unfold seriesErrMsg
  cases v.allowed_mean_bias_error <;> cases v.allowed_root_mean_squared_error <;>
    simp [FP.abs, FP.gt_none_left]

/-! ## Claim theorems -/

/-- C1.  The claim states `root_mean_squared_error(x, y)` equals
`sqrt(mean((y_i − x_i)²))`.  The source computes the mean squared error
but never takes the square root: at `x = [0]`, `y = [2]` the code
returns `4`, while the square root of the mean squared difference is the
unique nonnegative value whose square is `4`, namely `2`, and `4 ≠ 2`.
This contradicts the function's own doc comment
(`RMSE = sqrt(Σ(y_i - x_i)² / n)`). -/
theorem rmse_code_omits_sqrt :
    root_mean_squared_error [some 0] [some 2] = Except.ok (some 4) ∧
      (2 : ℚ) * 2 = 4 ∧ 0 ≤ (2 : ℚ) ∧ (4 : ℚ) ≠ 2 := by
  refine ⟨by decide, by decide, by decide, by decide⟩

/-- C3.  The claim states `min_max(x)` returns the pair of the minimum and
maximum elements of every non-empty NaN-free dataset.  The source seeds
the running minimum with `f32::MAX`, so on `x = [1e39]` (an `f64` value
above `f32::MAX`) it returns the sentinel `f32::MAX` — not an element of
the dataset — as the minimum.  The claimed concrete instance
`min_max([1,2,3,4,5]) = (1,5)` and the empty/NaN failure cases do hold. -/
theorem min_max_sentinel_failing_input :
    min_max [some (10 ^ 39)] = Except.ok (some f32MAX, some (10 ^ 39)) ∧
      f32MAX < 10 ^ 39 ∧ f32MAX ≠ 10 ^ 39 ∧
      min_max [some 1, some 2, some 3, some 4, some 5] = Except.ok (some 1, some 5) ∧
      min_max [] = Except.error "Trying to calculate Max and Min of empty dataset" ∧
      min_max [some 1, none] =
        Except.error "Found NaN when calculating min and max of dataset" := by
  refine ⟨by decide, by decide, by decide, by decide, by decide, by decide⟩

/-- C2 counterexample.  A `SeriesValidator` whose `expected` and `found`
datasets are both empty does not produce an `Err` Validation Outcome:
the Statistics Module's empty-dataset precondition violation is a panic
that propagates out of `validate`, and an aggregator holding that check
followed by a healthy one aborts the whole batch instead of running the
remaining Validator. -/
theorem empty_dataset_panic_aborts_batch :
    SeriesValidator.validate (fun _ => "") { expected := [], found := [] } =
      Except.error "Trying to calculate Mean Bias Error of empty datasets" ∧
    Validator.validate
      { title := "T",
        validations :=
          [SeriesValidator.validate (fun _ => "") { expected := [], found := [] },
            Except.ok (ValidationResult.Ok "healthy fragment")] } =
      Except.error "Trying to calculate Mean Bias Error of empty datasets" := by
  refine ⟨by decide, by decide⟩

/-- C8 counterexample.  `mean_bias_error(x, x)` and
`root_mean_squared_error(x, x)` are not `0` for every non-empty sequence:
at `x = [NaN]` both return NaN (in the model `none`), and NaN is not `0`. -/
theorem self_comparison_nan_counterexample :
    mean_bias_error [none] [none] = Except.ok none ∧
      root_mean_squared_error [none] [none] = Except.ok none ∧
      (none : FP) ≠ some 0 := by
  refine ⟨by decide, by decide, by decide⟩

/-- C2 (amended).  Failures the Validator itself checks for — a series
length mismatch, and threshold violations — are caught at the Validator
boundary and converted into `Err` Validation Outcomes, and the
Aggregator's `validate()` runs every Validator of a batch whose checks
all complete (no completed check, failing or not, aborts the batch).
Statistics-Module precondition panics (e.g. both datasets empty) are the
exception: they propagate and abort the batch, as the counterexample
shows. -/
theorem mismatch_and_completed_checks_never_abort
    (render : SeriesValidator → String) (v : SeriesValidator)
    (hne : v.expected.length ≠ v.found.length)
    (agg : Validator) (rs : List ValidationResult)
    (h : agg.validations = List.map Except.ok rs) :
    (∃ m, SeriesValidator.validate render v = Except.ok (ValidationResult.Err m m)) ∧
      ∃ out, Validator.validate agg = Except.ok out := by
  constructor
  · refine ⟨"Series to compare have different lengths. expected.len() = " ++
      toString v.expected.length ++ ", found.len() = " ++ toString v.found.length, ?_⟩
    rw [SeriesValidator.validate, if_pos hne]
  · rw [Validator.validate, h, runValidations_map_ok]
    exact ⟨_, rfl⟩

/-- Witness for C2 (amended): a mismatched series validator is caught as
an `Err` outcome, and a batch of two completed checks (one failing)
finishes instead of aborting. -/
theorem mismatch_and_completed_checks_never_abort_witness :
    (∃ m, SeriesValidator.validate (fun _ => "") { expected := [some 1], found := [] } =
      Except.ok (ValidationResult.Err m m)) ∧
      ∃ out, Validator.validate
        { title := "T",
          validations := [Except.ok (ValidationResult.Err "frag" "summary"),
            Except.ok (ValidationResult.Ok "frag2")] } = Except.ok out :=
  mismatch_and_completed_checks_never_abort (fun _ => "")
    { expected := [some 1], found := [] } (by decide)
    { title := "T",
      validations := [Except.ok (ValidationResult.Err "frag" "summary"),
        Except.ok (ValidationResult.Ok "frag2")] }
    [ValidationResult.Err "frag" "summary", ValidationResult.Ok "frag2"] rfl

/-- C4.  When every check completes, the Aggregator's `validate()`
returns success exactly when no constituent Validation Outcome was
`Err`; otherwise it returns the single synthetic failure carrying only
the fixed literal message `"Some validations failed..."`, with no
per-check detail in the returned value. -/
theorem aggregator_verdict_iff_no_err_outcome
    (v : Validator) (rs : List ValidationResult)
    (h : v.validations = List.map Except.ok rs) :
    ∃ body,
      Validator.validate v =
        Except.ok (body,
          if rs.all ValidationResult.is_ok then Except.ok ()
          else Except.error "Some validations failed...") := by
  refine ⟨"# " ++ v.title ++ "\n\n" ++
    String.intercalate "\n" (rs.map ValidationResult.fragment), ?_⟩
  rw [Validator.validate, h, runValidations_map_ok]
  dsimp only
  rw [errSummary_isEmpty_iff_all_ok rs]

/-- Witness for C4: a batch with one `Err` outcome yields the synthetic
failure; an all-`Ok` batch yields success. -/
theorem aggregator_verdict_iff_no_err_outcome_witness :
    (∃ body,
      Validator.validate
        { title := "T",
          validations := [Except.ok (ValidationResult.Ok "a"),
            Except.ok (ValidationResult.Err "b" "e")] } =
        Except.ok (body, Except.error "Some validations failed...")) ∧
      ∃ body,
        Validator.validate
          { title := "T", validations := [Except.ok (ValidationResult.Ok "a")] } =
          Except.ok (body, Except.ok ()) := by
  constructor
  · have h := aggregator_verdict_iff_no_err_outcome
      { title := "T",
        validations := [Except.ok (ValidationResult.Ok "a"),
          Except.ok (ValidationResult.Err "b" "e")] }
      [ValidationResult.Ok "a", ValidationResult.Err "b" "e"] rfl
    simpa [ValidationResult.is_ok] using h
  · have h := aggregator_verdict_iff_no_err_outcome
      { title := "T", validations := [Except.ok (ValidationResult.Ok "a")] }
      [ValidationResult.Ok "a"] rfl
    simpa [ValidationResult.is_ok] using h

/-- C5.  When every check completes, the report body built by the
Aggregator's `validate()` is the aggregate title followed by every
Validator's report fragment, concatenated in push order — the fragment
of an `Err` outcome included. -/
theorem aggregator_report_contains_all_fragments
    (v : Validator) (rs : List ValidationResult)
    (h : v.validations = List.map Except.ok rs) :
    ∃ verdict,
      Validator.validate v =
        Except.ok ("# " ++ v.title ++ "\n\n" ++
          String.intercalate "\n" (rs.map ValidationResult.fragment), verdict) := by
  refine ⟨if (rs.filterMap ValidationResult.errSummary).isEmpty then Except.ok ()
    else Except.error "Some validations failed...", ?_⟩
  rw [Validator.validate, h, runValidations_map_ok]

/-- Witness for C5: with one passing and one failing check the report
body contains both fragments ("a" and the failing check's "b") after the
title, in push order. -/
theorem aggregator_report_contains_all_fragments_witness :
    ∃ verdict,
      Validator.validate
        { title := "T",
          validations := [Except.ok (ValidationResult.Ok "a"),
            Except.ok (ValidationResult.Err "b" "e")] } =
        Except.ok ("# T\n\na\nb", verdict) := by
  have h := aggregator_report_contains_all_fragments
    { title := "T",
      validations := [Except.ok (ValidationResult.Ok "a"),
        Except.ok (ValidationResult.Err "b" "e")] }
    [ValidationResult.Ok "a", ValidationResult.Err "b" "e"] rfl
  have hs : ("# " ++ "T" ++ "\n\n" ++
      String.intercalate "\n" ([ValidationResult.Ok "a",
        ValidationResult.Err "b" "e"].map ValidationResult.fragment)) = "# T\n\na\nb" := by
    decide
  rwa [hs] at h

/-- C8 (amended).  For every non-empty sequence `x` that contains no NaN
(and whose length is within the `i32` range the statistics accept),
`mean_bias_error(x, x) = 0` and `root_mean_squared_error(x, x) = 0`. -/
theorem self_comparison_zero_of_no_nan
    (x : List FP) (h0 : x ≠ []) (hmax : x.length ≤ i32MAX)
    (hnan : ∀ a ∈ x, a.is_it_nan = false) :
    mean_bias_error x x = Except.ok (some 0) ∧
      root_mean_squared_error x x = Except.ok (some 0) := by
  have hlen0 : x.length ≠ 0 := fun hc => h0 (List.length_eq_zero.mp hc)
  have hcast : ((x.length : ℚ)) ≠ 0 := Nat.cast_ne_zero.mpr hlen0
  have htry : try_into_t x.length = Except.ok ((x.length : ℚ)) := by
    unfold try_into_t
    rw [if_neg (Nat.not_lt.mpr hmax)]
  constructor
  · unfold mean_bias_error
    rw [if_neg (fun hc => hc rfl), if_neg hlen0, htry]
    show Except.ok (FP.div (sumFP ((x.zip x).map fun p => FP.sub p.2 p.1))
      (some ((x.length : ℚ)))) = _
    rw [sumFP_all_zero _ (zip_self_sub_zero x hnan), FP.div_some _ _ hcast, zero_div]
  · unfold root_mean_squared_error
    rw [if_neg (fun hc => hc rfl), if_neg hlen0, htry]
    show Except.ok (FP.div
      (sumFP ((x.zip x).map fun p => FP.mul (FP.sub p.2 p.1) (FP.sub p.2 p.1)))
      (some ((x.length : ℚ)))) = _
    rw [sumFP_all_zero _ (zip_self_sub_sq_zero x hnan), FP.div_some _ _ hcast, zero_div]

/-- Witness for C8 (amended) at `x = [1, 2]`. -/
theorem self_comparison_zero_of_no_nan_witness :
    mean_bias_error [some 1, some 2] [some 1, some 2] = Except.ok (some 0) ∧
      root_mean_squared_error [some 1, some 2] [some 1, some 2] = Except.ok (some 0) :=
  self_comparison_zero_of_no_nan [some 1, some 2] (by decide) (by decide) (by decide)

/-- C9.  `mean(x)` divides the 64-bit-accumulated sum by the element
count converted through the `i32` path: any dataset longer than
`i32::MAX` is rejected with the too-many-samples failure, and for any
length within that range `try_into_t` converts the count exactly, so
`mean` divides by exactly the element count. -/
theorem mean_count_conversion_policy (x : List FP) :
    (i32MAX < x.length →
      mean x = Except.error "Too many samples... the limit is 2147483647") ∧
    (x ≠ [] → x.length ≤ i32MAX →
      try_into_t x.length = Except.ok ((x.length : ℚ)) ∧
      mean x = Except.ok (FP.div (sumFP x) (some ((x.length : ℚ))))) := by
  constructor
  · intro hgt
    have hlen0 : x.length ≠ 0 := by
      intro hc; rw [hc] at hgt; exact absurd hgt (by decide)
    unfold mean
    rw [if_neg hlen0]
    unfold try_into_t
    rw [if_pos hgt]
    rfl
  · intro h0 hmax
    have hlen0 : x.length ≠ 0 := fun hc => h0 (List.length_eq_zero.mp hc)
    have htry : try_into_t x.length = Except.ok ((x.length : ℚ)) := by
      unfold try_into_t
      rw [if_neg (Nat.not_lt.mpr hmax)]
    refine ⟨htry, ?_⟩
    unfold mean
    rw [if_neg hlen0, htry]
    rfl

/-- Witness for C9: a dataset of `i32::MAX + 1` zeros is rejected with
the too-many-samples failure, while a three-element dataset has its
count converted exactly. -/
theorem mean_count_conversion_policy_witness :
    mean (List.replicate 2147483648 (some (0 : ℚ))) =
      Except.error "Too many samples... the limit is 2147483647" ∧
      (try_into_t ([some (1 : ℚ), some 2, some 3] : List FP).length =
        Except.ok ((([some (1 : ℚ), some 2, some 3] : List FP).length : ℚ)) ∧
        mean [some (1 : ℚ), some 2, some 3] =
          Except.ok (FP.div (sumFP [some 1, some 2, some 3])
            (some ((([some (1 : ℚ), some 2, some 3] : List FP).length : ℚ))))) :=
  ⟨(mean_count_conversion_policy _).1 (by rw [List.length_replicate]; decide),
    (mean_count_conversion_policy [some 1, some 2, some 3]).2 (by decide) (by decide)⟩

/-- The ok-branch of `linear_coefficients`, written out. -/
theorem linear_coefficients_ok (x y : List FP) (hlen : x.length = y.length)
    (hlen0 : x.length ≠ 0) (hmax : x.length ≤ i32MAX) :
    linear_coefficients x y =
      Except.ok
        (FP.div
          (FP.sub (sumFP y)
            (FP.mul
              (FP.div
                (FP.sub (sumFP ((x.zip y).map fun p => FP.mul p.1 p.2))
                  (FP.div (FP.mul (sumFP x) (sumFP y)) (some ((x.length : ℚ)))))
                (FP.sub (sumFP (x.map fun a => FP.mul a a))
                  (FP.div (FP.mul (sumFP x) (sumFP x)) (some ((x.length : ℚ))))))
              (sumFP x)))
          (some ((x.length : ℚ))),
          FP.div
            (FP.sub (sumFP ((x.zip y).map fun p => FP.mul p.1 p.2))
              (FP.div (FP.mul (sumFP x) (sumFP y)) (some ((x.length : ℚ)))))
            (FP.sub (sumFP (x.map fun a => FP.mul a a))
              (FP.div (FP.mul (sumFP x) (sumFP x)) (some ((x.length : ℚ))))),
          FP.div
            (FP.mul
              (FP.sub (FP.mul (some ((x.length : ℚ)))
                  (sumFP ((x.zip y).map fun p => FP.mul p.1 p.2)))
                (FP.mul (sumFP x) (sumFP y)))
              (FP.sub (FP.mul (some ((x.length : ℚ)))
                  (sumFP ((x.zip y).map fun p => FP.mul p.1 p.2)))
                (FP.mul (sumFP x) (sumFP y))))
            (FP.mul
              (FP.sub (FP.mul (some ((x.length : ℚ))) (sumFP (x.map fun a => FP.mul a a)))
                (FP.mul (sumFP x) (sumFP x)))
              (FP.sub (FP.mul (some ((x.length : ℚ))) (sumFP (y.map fun a => FP.mul a a)))
                (FP.mul (sumFP y) (sumFP y))))) := by
  have htry : try_into_t x.length = Except.ok ((x.length : ℚ)) := by
    unfold try_into_t
    rw [if_neg (Nat.not_lt.mpr hmax)]
  unfold linear_coefficients
  rw [if_neg (fun hc => hc hlen), if_neg hlen0, htry]
  rfl

/-- C7.  For equal-length non-empty NaN-free datasets (within the `i32`
count range, and away from the untrapped zero-variance degeneracies),
`linear_coefficients` returns exactly the spec's closed-form
ordinary-least-squares intercept, slope and R², with all sums
accumulated exactly in the 64-bit reference type. -/
theorem linear_coefficients_matches_ols_closed_form
    (x y : List ℚ) (hlen : x.length = y.length) (h0 : x ≠ [])
    (hmax : x.length ≤ i32MAX)
    (hb : sumListQ (x.map fun a => a * a) - sumListQ x * sumListQ x / (x.length : ℚ) ≠ 0)
    (hr : ((x.length : ℚ) * sumListQ (x.map fun a => a * a) - sumListQ x * sumListQ x) *
        ((x.length : ℚ) * sumListQ (y.map fun a => a * a) - sumListQ y * sumListQ y) ≠ 0) :
    linear_coefficients (x.map some) (y.map some) =
      Except.ok (some (specIntercept x y), some (specSlope x y),
        some (specRSquared x y)) := by
  have hlen0 : x.length ≠ 0 := fun hc => h0 (List.length_eq_zero.mp hc)
  have hcast : ((x.length : ℚ)) ≠ 0 := Nat.cast_ne_zero.mpr hlen0
  rw [linear_coefficients_ok (x.map some) (y.map some)
    (by rw [List.length_map, List.length_map, hlen])
    (by rw [List.length_map]; exact hlen0)
    (by rw [List.length_map]; exact hmax)]
  rw [List.length_map, map_sq_some, map_sq_some, zip_map_some_mul, sumFP_map_some,
    sumFP_map_some, sumFP_map_some, sumFP_map_some, sumFP_map_some]
  simp only [FP.mul, FP.sub]
  rw [FP.div_some _ _ hcast, FP.div_some _ _ hcast]
  simp only [FP.sub]
  rw [FP.div_some _ _ hb]
  simp only [FP.mul, FP.sub]
  rw [FP.div_some _ _ hcast, FP.div_some _ _ hr]
  unfold specIntercept specSlope specRSquared
  rw [pow_two]

/-- Witness for C7 at the spec's concrete example `x = [1,2,3,4]`,
`y = [6,2,1,0]`, together with the claimed numeric bounds: intercept `7`,
slope `−1.9`, `R²` within `1e-3` of `0.8699`. -/
theorem linear_coefficients_matches_ols_closed_form_witness :
    linear_coefficients [some 1, some 2, some 3, some 4] [some 6, some 2, some 1, some 0] =
      Except.ok (some (specIntercept [1, 2, 3, 4] [6, 2, 1, 0]),
        some (specSlope [1, 2, 3, 4] [6, 2, 1, 0]),
        some (specRSquared [1, 2, 3, 4] [6, 2, 1, 0])) ∧
      |specIntercept [1, 2, 3, 4] [6, 2, 1, 0] - 7| ≤ 1 / 1000 ∧
      |specSlope [1, 2, 3, 4] [6, 2, 1, 0] - (-19 / 10)| ≤ 1 / 1000 ∧
      |specRSquared [1, 2, 3, 4] [6, 2, 1, 0] - 8699 / 10000| ≤ 1 / 1000 :=
  ⟨by
    have h := linear_coefficients_matches_ols_closed_form [1, 2, 3, 4] [6, 2, 1, 0]
      (by decide) (by decide) (by decide) (by decide) (by decide)
    simpa using h,
    by decide, by decide, by decide⟩

/-- C6.  A `SeriesValidator` with mismatched dataset lengths returns an
`Err` outcome; with equal-length non-empty datasets (within the `i32`
count range) it always returns a fragment carrying both metrics, tagged
`Err` exactly when some configured threshold is violated — so with no
thresholds configured it returns `Ok` regardless of metric magnitude. -/
theorem series_validator_outcome_spec (render : SeriesValidator → String)
    (v : SeriesValidator) :
    (v.expected.length ≠ v.found.length →
      ∃ m, SeriesValidator.validate render v = Except.ok (ValidationResult.Err m m)) ∧
    (v.expected.length = v.found.length → v.expected ≠ [] →
      v.expected.length ≤ i32MAX →
      ∃ mbe rmse rest,
        mean_bias_error v.expected v.found = Except.ok mbe ∧
        root_mean_squared_error v.expected v.found = Except.ok rmse ∧
        SeriesValidator.validate render v =
          Except.ok
            (if seriesViolated v mbe rmse then
              ValidationResult.Err
                ("" ++ "\n * Mean Bias Error: " ++ fmt4 mbe ++
                  "\n * Root Mean Squared Error: " ++ fmt4 rmse ++ rest)
                (seriesErrMsg v mbe rmse)
            else
              ValidationResult.Ok
                ("" ++ "\n * Mean Bias Error: " ++ fmt4 mbe ++
                  "\n * Root Mean Squared Error: " ++ fmt4 rmse ++ rest))) := by
  constructor
  · intro hne
    refine ⟨"Series to compare have different lengths. expected.len() = " ++
      toString v.expected.length ++ ", found.len() = " ++ toString v.found.length, ?_⟩
    rw [SeriesValidator.validate, if_pos hne]
  · intro hlen h0 hmax
    have hlen0 : v.expected.length ≠ 0 := fun hc => h0 (List.length_eq_zero.mp hc)
    have htry : try_into_t v.expected.length = Except.ok ((v.expected.length : ℚ)) := by
      unfold try_into_t
      rw [if_neg (Nat.not_lt.mpr hmax)]
    set mbeV : FP :=
      FP.div (sumFP ((v.expected.zip v.found).map fun p => FP.sub p.2 p.1))
        (some ((v.expected.length : ℚ)))
    set rmseV : FP :=
      FP.div (sumFP ((v.expected.zip v.found).map fun p =>
          FP.mul (FP.sub p.2 p.1) (FP.sub p.2 p.1)))
        (some ((v.expected.length : ℚ)))
    have hm : mean_bias_error v.expected v.found = Except.ok mbeV := by
      unfold mean_bias_error
      rw [if_neg (fun hc => hc hlen), if_neg hlen0, htry]
      rfl
    have hr : root_mean_squared_error v.expected v.found = Except.ok rmseV := by
      unfold root_mean_squared_error
      rw [if_neg (fun hc => hc hlen), if_neg hlen0, htry]
      rfl
    refine ⟨mbeV, rmseV,
      "\n#### Errors:\n " ++
        ((if seriesNChecks v = 0 then "No checks performed..."
          else if seriesErrMsg v mbeV rmseV = "" then "No errors found"
          else seriesErrMsg v mbeV rmseV) ++ ("\n#### Data:\n\n" ++ render v)),
      hm, hr, ?_⟩
    rw [SeriesValidator.validate, if_neg (fun hc => hc hlen), htry, hm, hr]
    simp only [except_pure_bind]
    cases hviol : seriesViolated v mbeV rmseV with
    | false =>
      have he : seriesErrMsg v mbeV rmseV = "" :=
        (seriesErrMsg_eq_empty_iff v mbeV rmseV).mpr hviol
      simp only [if_pos he, hviol]
      simp [str_append_assoc, str_empty_append]
    | true =>
      have hne2 : seriesErrMsg v mbeV rmseV ≠ "" := by
        intro he
        have hf := (seriesErrMsg_eq_empty_iff v mbeV rmseV).mp he
        rw [hviol] at hf
        exact absurd hf (by decide)
      simp only [if_neg hne2, hviol]
      simp [str_append_assoc, str_empty_append]

/-- Witness for C6: a mismatched validator yields an `Err` outcome, and
the spec's example (`expected=[1,2,3]`, `found=[5,6,6]`, no thresholds)
completes with an `Ok` fragment carrying both (nonzero) metrics. -/
theorem series_validator_outcome_spec_witness :
    (∃ m, SeriesValidator.validate (fun _ => "")
      { expected := [some 1, some 2], found := [some 1] } =
      Except.ok (ValidationResult.Err m m)) ∧
    ∃ mbe rmse rest,
      mean_bias_error [some 1, some 2, some 3] [some 5, some 6, some 6] =
        Except.ok mbe ∧
      root_mean_squared_error [some 1, some 2, some 3] [some 5, some 6, some 6] =
        Except.ok rmse ∧
      SeriesValidator.validate (fun _ => "")
        { expected := [some 1, some 2, some 3], found := [some 5, some 6, some 6] } =
        Except.ok (ValidationResult.Ok
          ("" ++ "\n * Mean Bias Error: " ++ fmt4 mbe ++
            "\n * Root Mean Squared Error: " ++ fmt4 rmse ++ rest)) :=
  ⟨(series_validator_outcome_spec (fun _ => "")
      { expected := [some 1, some 2], found := [some 1] }).1 (by decide),
    (series_validator_outcome_spec (fun _ => "")
      { expected := [some 1, some 2, some 3], found := [some 5, some 6, some 6] }).2
      rfl (by decide) (by decide)⟩

/-- C10.  Only `min_max` rejects NaN.  For equal-length non-empty
datasets (within the `i32` count range) containing a NaN element,
`mean_bias_error`, `root_mean_squared_error` and `linear_coefficients`
return NaN rather than failing (`mean` too when its dataset holds the
NaN), while `min_max` panics; consequently a `SeriesValidator` over such
datasets returns `Ok` whatever thresholds are configured, because a NaN
metric never compares greater than a threshold. -/
theorem nan_propagates_and_disables_thresholds
    (x y : List FP) (hlen : x.length = y.length) (h0 : x ≠ [])
    (hmax : x.length ≤ i32MAX)
    (hnan : (∃ a ∈ x, a = none) ∨ (∃ b ∈ y, b = none)) :
    mean_bias_error x y = Except.ok none ∧
      root_mean_squared_error x y = Except.ok none ∧
      linear_coefficients x y = Except.ok (none, none, none) ∧
      ((∃ a ∈ x, a = none) →
        mean x = Except.ok none ∧
        min_max x = Except.error "Found NaN when calculating min and max of dataset") ∧
      (∀ (render : SeriesValidator → String) (tM tR : Option FP),
        ∃ frag,
          SeriesValidator.validate render
            { allowed_mean_bias_error := tM, allowed_root_mean_squared_error := tR,
              expected := x, found := y } = Except.ok (ValidationResult.Ok frag)) := by
  have hlen0 : x.length ≠ 0 := fun hc => h0 (List.length_eq_zero.mp hc)
  have htry : try_into_t x.length = Except.ok ((x.length : ℚ)) := by
    unfold try_into_t
    rw [if_neg (Nat.not_lt.mpr hmax)]
  have hsub : sumFP ((x.zip y).map fun p => FP.sub p.2 p.1) = none := by
    rcases zip_map_none_of_mem (fun a b => FP.sub b a)
      (fun b => FP.sub_none_right b) (fun a => FP.sub_none_left a) x y hlen hnan with
      ⟨c, hc, hcn⟩
    exact sumFP_none_of_mem _ ⟨c, hc, hcn⟩
  have hsq : sumFP ((x.zip y).map fun p =>
      FP.mul (FP.sub p.2 p.1) (FP.sub p.2 p.1)) = none := by
    rcases zip_map_none_of_mem (fun a b => FP.mul (FP.sub b a) (FP.sub b a))
      (fun b => by
        show FP.mul (FP.sub b none) (FP.sub b none) = none
        rw [FP.sub_none_right, FP.mul_none_left])
      (fun a => by
        show FP.mul (FP.sub none a) (FP.sub none a) = none
        rw [FP.sub_none_left, FP.mul_none_left]) x y hlen hnan with
      ⟨c, hc, hcn⟩
    exact sumFP_none_of_mem _ ⟨c, hc, hcn⟩
  have hxy : sumFP ((x.zip y).map fun p => FP.mul p.1 p.2) = none := by
    rcases zip_map_none_of_mem FP.mul FP.mul_none_left FP.mul_none_right x y hlen hnan with
      ⟨c, hc, hcn⟩
    exact sumFP_none_of_mem _ ⟨c, hc, hcn⟩
  have hmbe : mean_bias_error x y = Except.ok none := by
    unfold mean_bias_error
    rw [if_neg (fun hc => hc hlen), if_neg hlen0, htry, except_pure_bind, hsub,
      FP.div_none_left]
  have hrmse : root_mean_squared_error x y = Except.ok none := by
    unfold root_mean_squared_error
    rw [if_neg (fun hc => hc hlen), if_neg hlen0, htry, except_pure_bind, hsq,
      FP.div_none_left]
  refine ⟨hmbe, hrmse, ?_, ?_, ?_⟩
  · rw [linear_coefficients_ok x y hlen hlen0 hmax, hxy]
    simp only [FP.mul_none_left, FP.mul_none_right, FP.sub_none_left, FP.sub_none_right,
      FP.div_none_left]
  · intro hx
    constructor
    · unfold mean
      rw [if_neg hlen0, htry, except_pure_bind, sumFP_none_of_mem x hx, FP.div_none_left]
    · unfold min_max
      rw [if_neg hlen0]
      exact min_max_loop_nan x _ _ hx
  · intro render tM tR
    rw [SeriesValidator.validate]
    dsimp only
    rw [if_neg (fun hc => hc hlen), htry, hmbe, hrmse]
    simp only [except_pure_bind]
    simp only [seriesErrMsg_nan]
    exact ⟨_, rfl⟩

/-- Witness for C10 at `x = [1, NaN]`, `y = [0, 0]` with both thresholds
configured to `0.1`: every statistic returns NaN, `min_max` panics, and
the series validator still returns `Ok`. -/
theorem nan_propagates_and_disables_thresholds_witness :
    mean_bias_error [some 1, none] [some 0, some 0] = Except.ok none ∧
      root_mean_squared_error [some 1, none] [some 0, some 0] = Except.ok none ∧
      linear_coefficients [some 1, none] [some 0, some 0] = Except.ok (none, none, none) ∧
      mean [some 1, none] = Except.ok none ∧
      min_max [some 1, none] =
        Except.error "Found NaN when calculating min and max of dataset" ∧
      ∃ frag,
        SeriesValidator.validate (fun _ => "")
          { allowed_mean_bias_error := some (some (1 / 10)),
            allowed_root_mean_squared_error := some (some (1 / 10)),
            expected := [some 1, none], found := [some 0, some 0] } =
          Except.ok (ValidationResult.Ok frag) := by
  have h := nan_propagates_and_disables_thresholds [some 1, none] [some 0, some 0]
    rfl (by decide) (by decide) (Or.inl (by decide))
  exact ⟨h.1, h.2.1, h.2.2.1, (h.2.2.2.1 (by decide)).1, (h.2.2.2.1 (by decide)).2,
    h.2.2.2.2 (fun _ => "") (some (some (1 / 10))) (some (some (1 / 10)))⟩

end Validate
